import Mathlib

/-!
Verification development for the fraud-alert voice-agent backend
(`backend/src/agent.py`). The store is the JSON collection handled by
`load_db`/`save_db`, modelled as an explicit `List FraudCase` threaded
through the tool functions; a call to `save_db` is recorded in the
`saved` field of a tool's result.
-/

/-- The `FraudCase` dataclass of `agent.py`. -/
structure FraudCase where
  userName : String
  securityIdentifier : String
  cardEnding : String
  transactionName : String
  transactionAmount : String
  transactionTime : String
  transactionSource : String
  case_status : String := "pending_review"
  notes : String := ""
deriving Repr, DecidableEq

/-- The `Userdata` dataclass of `agent.py`: per-session state, holding only
the active case snapshot. -/
structure Userdata where
  active_case : Option FraudCase := none
deriving Repr, DecidableEq

/-- Python's `str.lower()`: lowercase every character. -/
def pyLower (s : String) : String := ⟨s.data.map Char.toLower⟩

/-- Python's `str.strip()`: drop whitespace from both ends. -/
def pyStrip (s : String) : String :=
  ⟨((s.data.dropWhile Char.isWhitespace).reverse.dropWhile
      Char.isWhitespace).reverse⟩

/-- Boolean test that the first list is a prefix of the second. -/
def isPre : List Char → List Char → Bool
  | [], _ => true
  | _ :: _, [] => false
  | a :: as, b :: bs => a == b && isPre as bs

/-- Boolean test that the first list occurs contiguously inside the second. -/
def substrB (a : List Char) : List Char → Bool
  | [] => a.isEmpty
  | b :: bs => isPre a (b :: bs) || substrB a bs

/-- Python's string containment `a in b`: `a` is a contiguous substring
of `b` (the empty string is contained in every string). -/
def pyIn (a b : String) : Bool := substrB a.toList b.toList

/-- The match predicate of `lookup_customer`, line 84 of `agent.py`:
`item["userName"].lower() in name or name in item["userName"].lower()`,
where `name` has already been stripped and lowercased. -/
def matchesQuery (item : FraudCase) (name : String) : Bool :=
  pyIn (pyLower item.userName) name || pyIn name (pyLower item.userName)

/-- The `FOUND|...` reply string built by `lookup_customer`. -/
def foundMessage (r : FraudCase) : String :=
  "FOUND|SecurityID=" ++ r.securityIdentifier ++
  "|Amount=" ++ r.transactionAmount ++
  "|Name=" ++ r.transactionName ++
  "|Source=" ++ r.transactionSource ++
  "|Time=" ++ r.transactionTime

/-- Result of one tool invocation: the store collection after the call
(`db`), the session state after the call (`userdata`), the string returned
to the dialogue layer (`reply`), and whether `save_db` was invoked
(`saved`). -/
structure ToolResult where
  db : List FraudCase
  userdata : Userdata
  reply : String
  saved : Bool
deriving Repr, DecidableEq

/-- The `lookup_customer` tool of `agent.py` (lines 70-99): strips and
lowercases the query, takes the first record satisfying the bidirectional
containment test, and on a match stores the snapshot in
`userdata.active_case` and formats the `FOUND` reply. It never calls
`save_db`. -/
def lookup_customer (db : List FraudCase) (ud : Userdata) (name : String) :
    ToolResult :=
  let name := pyLower (pyStrip name)
  match db.find? (fun item => matchesQuery item name) with
  | none => ⟨db, ud, "NO_MATCH", false⟩
  | some found_record =>
      ⟨db, { ud with active_case := some found_record },
        foundMessage found_record, false⟩

/-- The update loop of `resolve_fraud_case` (lines 122-125): replace the
first record whose `userName` equals the case's `userName` by the full
case record (`data[i] = asdict(case)` followed by `break`); records after
the first match, and all records when none matches, are left as loaded. -/
def updateData : List FraudCase → FraudCase → List FraudCase
  | [], _ => []
  | item :: rest, case0 =>
      if item.userName == case0.userName then case0 :: rest
      else item :: updateData rest case0

/-- The `resolve_fraud_case` tool of `agent.py` (lines 102-132): if no
active case is loaded, return the error string without touching the store;
otherwise overwrite the snapshot's `case_status` and `notes`, replace the
first record of the loaded collection whose `userName` matches exactly,
call `save_db`, and report `UPDATED_FRAUD` or `UPDATED_SAFE`. -/
def resolve_fraud_case (db : List FraudCase) (ud : Userdata)
    (status notes : String) : ToolResult :=
  match ud.active_case with
  | none => ⟨db, ud, "ERROR: No case loaded.", false⟩
  | some case0 =>
      let case1 := { case0 with case_status := status, notes := notes }
      let data := updateData db case1
      let reply :=
        if status == "confirmed_fraud" then
          "UPDATED_FRAUD|Card " ++ case1.cardEnding ++ " has been blocked."
        else
          "UPDATED_SAFE|Transaction marked legitimate."
      ⟨data, { ud with active_case := some case1 }, reply, true⟩

/-- Modelled from the spec: the spec's Session carries `verified` and
`resolved` flags in addition to the active case; the source's `Userdata`
(the session state actually given to the tools) holds only `active_case`,
so this structure pairs the source session state with the spec's extra
flags in order to state claims that mention them. -/
structure SpecSession where
  userdata : Userdata
  verified : Bool
  resolved : Bool
deriving Repr, DecidableEq

/-- `resolve_fraud_case` invoked from a spec-level session: the tool only
receives the `Userdata` part, hence cannot consult `verified` or
`resolved`. -/
def resolveOnSession (db : List FraudCase) (s : SpecSession)
    (status notes : String) : ToolResult :=
  resolve_fraud_case db s.userdata status notes

/-- Modelled from the spec: the matching rule as the claim states it,
containment between the lowercased query and the lowercased stored name in
either direction, with no whitespace stripping. -/
def specMatch (storedName query : String) : Bool :=
  pyIn (pyLower storedName) (pyLower query) ||
  pyIn (pyLower query) (pyLower storedName)

/-- Concrete fraud case used as a test fixture. -/
def johnCase : FraudCase :=
  { userName := "John", securityIdentifier := "1234", cardEnding := "4242",
    transactionName := "TechWorld Online", transactionAmount := "$129.99",
    transactionTime := "2:47 AM", transactionSource := "techworld.com" }

/-- Fixture: a second customer whose name shares no substring relation
with a "jo" query. -/
def maryCase : FraudCase :=
  { userName := "Mary", securityIdentifier := "5678", cardEnding := "9090",
    transactionName := "GadgetHub", transactionAmount := "$54.10",
    transactionTime := "11:05 PM", transactionSource := "gadgethub.io" }

/-- Fixture: the store's copy of John's record after some other field
(card ending) has changed since the session's snapshot was taken. -/
def johnCaseRecard : FraudCase := { johnCase with cardEnding := "9999" }

/-- Session fixture with John's snapshot loaded as the active case. -/
def sessionWithJohn : Userdata := ⟨some johnCase⟩

/-- Spec-level session fixture: John's case is loaded but the session was
never verified. -/
def unverifiedSession : SpecSession := ⟨sessionWithJohn, false, false⟩

/-- The empty string is a Python-substring of every string. -/
theorem pyIn_empty_left (b : String) : pyIn "" b = true := by
  show substrB [] b.data = true
  cases b.data <;> simp [substrB, isPre, List.isEmpty]

/-- A record whose stripped, lowercased query is empty always matches. -/
theorem matchesQuery_empty (c : FraudCase) : matchesQuery c "" = true := by
  simp [matchesQuery, pyIn_empty_left]

/-- `List.find?` returns the element at the first index where the
predicate holds. -/
theorem find?_eq_of_first {α : Type} (p : α → Bool) :
    ∀ (l : List α) (i : Nat) (c : α), l[i]? = some c → p c = true →
      (∀ j, j < i → ∀ c', l[j]? = some c' → p c' = false) →
      l.find? p = some c
  | [], i, c, hc, _, _ => by simp at hc
  | a :: t, 0, c, hc, hp, _ => by
      rw [List.getElem?_cons_zero, Option.some.injEq] at hc
      subst hc
      exact List.find?_cons_of_pos t hp
  | a :: t, i + 1, c, hc, hp, hfirst => by
      have ha : p a = false :=
        hfirst 0 (Nat.succ_pos i) a List.getElem?_cons_zero
      rw [List.find?_cons_of_neg t (by simp [ha])]
      exact find?_eq_of_first p t i c (by simpa using hc) hp
        (fun j hj c' hc' =>
          hfirst (j + 1) (Nat.succ_lt_succ hj) c' (by simpa using hc'))

/-- When the case's key matches no stored record, the update loop leaves
the collection exactly as loaded. -/
theorem updateData_eq_self :
    ∀ (db : List FraudCase) (c : FraudCase),
      (∀ r ∈ db, r.userName ≠ c.userName) → updateData db c = db
  | [], _, _ => rfl
  | item :: rest, c, h => by
      have hne : item.userName ≠ c.userName := h item (List.mem_cons_self _ _)
      rw [updateData, if_neg (by simpa using hne),
        updateData_eq_self rest c (fun r hr => h r (List.mem_cons_of_mem _ hr))]

/-- The update loop is idempotent: running it twice with the same case
gives the same collection as running it once. -/
theorem updateData_idem :
    ∀ (db : List FraudCase) (c : FraudCase),
      updateData (updateData db c) c = updateData db c
  | [], _ => rfl
  | item :: rest, c => by
      by_cases h : item.userName = c.userName
      · rw [updateData, if_pos (by simpa using h), updateData,
          if_pos (by simp)]
      · rw [updateData, if_neg (by simpa using h), updateData,
          if_neg (by simpa using h), updateData_idem rest c]

/-- The update loop replaces the record at the first index whose
`userName` equals the case's key, and nothing else: the result is
`db.set i c`. -/
theorem updateData_eq_set (c : FraudCase) :
    ∀ (db : List FraudCase) (i : Nat) (c0 : FraudCase), db[i]? = some c0 →
      c0.userName = c.userName →
      (∀ j, j < i → ∀ c', db[j]? = some c' → c'.userName ≠ c.userName) →
      updateData db c = db.set i c
  | [], i, c0, hc, _, _ => by simp at hc
  | a :: t, 0, c0, hc, heq, _ => by
      rw [List.getElem?_cons_zero, Option.some.injEq] at hc
      subst hc
      rw [updateData, if_pos (by simpa using heq), List.set_cons_zero]
  | a :: t, i + 1, c0, hc, heq, hfirst => by
      have ha : a.userName ≠ c.userName :=
        hfirst 0 (Nat.succ_pos i) a List.getElem?_cons_zero
      rw [updateData, if_neg (by simpa using ha), List.set_cons_succ,
        updateData_eq_set c t i c0 (by simpa using hc) heq
          (fun j hj c' hc' =>
            hfirst (j + 1) (Nat.succ_lt_succ hj) c' (by simpa using hc'))]

/-- Every record of the updated collection is either an original record or
the case written by the loop. -/
theorem updateData_mem :
    ∀ (db : List FraudCase) (c r : FraudCase),
      r ∈ updateData db c → r ∈ db ∨ r = c
  | [], _, _, h => by simp [updateData] at h
  | item :: rest, c, r, h => by
      rw [updateData] at h
      by_cases hn : item.userName = c.userName
      · rw [if_pos (by simpa using hn)] at h
        rcases List.mem_cons.mp h with h | h
        · exact Or.inr h
        · exact Or.inl (List.mem_cons_of_mem _ h)
      · rw [if_neg (by simpa using hn)] at h
        rcases List.mem_cons.mp h with h | h
        · exact Or.inl (h ▸ List.mem_cons_self _ _)
        · rcases updateData_mem rest c r h with h | h
          · exact Or.inl (List.mem_cons_of_mem _ h)
          · exact Or.inr h

/-- C1 (counterexample): a session holding an active case that was never
verified still gets a full resolution: `resolve_fraud_case` saves the
store, changes the collection, and returns a success reply rather than
the no-active-case error, so the claimed precondition
"active case set AND verified" is not what the code enforces. -/
theorem C1_counterexample :
    unverifiedSession.verified = false ∧
    (resolveOnSession [johnCase] unverifiedSession "confirmed_safe"
        "User confirmed.").saved = true ∧
    (resolveOnSession [johnCase] unverifiedSession "confirmed_safe"
        "User confirmed.").db ≠ [johnCase] ∧
    (resolveOnSession [johnCase] unverifiedSession "confirmed_safe"
        "User confirmed.").reply ≠ "ERROR: No case loaded." := by
  refine ⟨rfl, rfl, ?_, ?_⟩ <;> decide

/-- C1 (amended): the only precondition `resolve_fraud_case` enforces is
that an active case is set; verification status is not tracked by the
code. Whenever the session has no active case, the call returns the
error reply, the store collection is unchanged, `save_db` is not invoked,
and the session state is unchanged. -/
theorem C1_no_active_case_guard (db : List FraudCase) (ud : Userdata)
    (status notes : String) (h : ud.active_case = none) :
    (resolve_fraud_case db ud status notes).reply = "ERROR: No case loaded." ∧
    (resolve_fraud_case db ud status notes).db = db ∧
    (resolve_fraud_case db ud status notes).saved = false ∧
    (resolve_fraud_case db ud status notes).userdata = ud := by
  simp [resolve_fraud_case, h]

/-- C1 witness: the guard fires on the fresh session with no case loaded. -/
theorem C1_no_active_case_guard_witness :
    (resolve_fraud_case [johnCase] {} "confirmed_safe" "n").reply =
        "ERROR: No case loaded." ∧
    (resolve_fraud_case [johnCase] {} "confirmed_safe" "n").db = [johnCase] ∧
    (resolve_fraud_case [johnCase] {} "confirmed_safe" "n").saved = false ∧
    (resolve_fraud_case [johnCase] {} "confirmed_safe" "n").userdata = {} :=
  C1_no_active_case_guard [johnCase] {} "confirmed_safe" "n" rfl

/-- C2 (counterexample): after a first successful resolution, a second
`resolve_fraud_case` call in the same session returns the same
`UPDATED_SAFE` success reply — not `ALREADY_RESOLVED` — and invokes
`save_db` a second time. -/
theorem C2_counterexample :
    (resolve_fraud_case
        (resolve_fraud_case [johnCase] sessionWithJohn "confirmed_safe"
          "User confirmed.").db
        (resolve_fraud_case [johnCase] sessionWithJohn "confirmed_safe"
          "User confirmed.").userdata
        "confirmed_safe" "User confirmed.").reply =
      "UPDATED_SAFE|Transaction marked legitimate." ∧
    (resolve_fraud_case
        (resolve_fraud_case [johnCase] sessionWithJohn "confirmed_safe"
          "User confirmed.").db
        (resolve_fraud_case [johnCase] sessionWithJohn "confirmed_safe"
          "User confirmed.").userdata
        "confirmed_safe" "User confirmed.").saved = true := by
  constructor <;> decide

/-- C2 (amended): there is no idempotence guard in the code. A second
`resolve_fraud_case` call in the same session performs a second `save_db`
and returns the same reply as the first; with identical arguments the
second write leaves the store contents exactly as after the first call,
so the repetition is idempotent in store content but not a guarded
no-op. -/
theorem C2_second_resolve (db : List FraudCase) (ud : Userdata)
    (status notes : String) (c : FraudCase) (h : ud.active_case = some c) :
    (resolve_fraud_case (resolve_fraud_case db ud status notes).db
        (resolve_fraud_case db ud status notes).userdata status notes).db =
      (resolve_fraud_case db ud status notes).db ∧
    (resolve_fraud_case (resolve_fraud_case db ud status notes).db
        (resolve_fraud_case db ud status notes).userdata status notes).reply =
      (resolve_fraud_case db ud status notes).reply ∧
    (resolve_fraud_case (resolve_fraud_case db ud status notes).db
        (resolve_fraud_case db ud status notes).userdata status notes).saved =
      true := by
  simp [resolve_fraud_case, h, updateData_idem]

/-- C2 witness: the second resolution of John's case repeats the write. -/
theorem C2_second_resolve_witness :
    (resolve_fraud_case
        (resolve_fraud_case [johnCase] sessionWithJohn "confirmed_safe" "n").db
        (resolve_fraud_case [johnCase] sessionWithJohn "confirmed_safe"
          "n").userdata "confirmed_safe" "n").db =
      (resolve_fraud_case [johnCase] sessionWithJohn "confirmed_safe" "n").db ∧
    (resolve_fraud_case
        (resolve_fraud_case [johnCase] sessionWithJohn "confirmed_safe" "n").db
        (resolve_fraud_case [johnCase] sessionWithJohn "confirmed_safe"
          "n").userdata "confirmed_safe" "n").reply =
      (resolve_fraud_case [johnCase] sessionWithJohn "confirmed_safe"
        "n").reply ∧
    (resolve_fraud_case
        (resolve_fraud_case [johnCase] sessionWithJohn "confirmed_safe" "n").db
        (resolve_fraud_case [johnCase] sessionWithJohn "confirmed_safe"
          "n").userdata "confirmed_safe" "n").saved = true :=
  C2_second_resolve [johnCase] sessionWithJohn "confirmed_safe" "n" johnCase
    rfl

/-- C3 (counterexample): with John's snapshot active but only Mary's
record in the store, `resolve_fraud_case` reports `UPDATED_SAFE` success
(not a `STALE_CASE` failure) and still invokes `save_db`. -/
theorem C3_counterexample :
    (resolve_fraud_case [maryCase] sessionWithJohn "confirmed_safe"
        "User confirmed.").reply =
      "UPDATED_SAFE|Transaction marked legitimate." ∧
    (resolve_fraud_case [maryCase] sessionWithJohn "confirmed_safe"
        "User confirmed.").saved = true := by
  constructor <;> decide

/-- C3 (amended): when the active case's `userName` matches no stored
record, `resolve_fraud_case` leaves the store contents unchanged but
still performs a (content-preserving) `save_db` and returns the normal
success reply; no `STALE_CASE` error and no session state machine exist
in the code. -/
theorem C3_stale_key (db : List FraudCase) (ud : Userdata)
    (status notes : String) (c : FraudCase) (h : ud.active_case = some c)
    (hnone : ∀ r ∈ db, r.userName ≠ c.userName) :
    (resolve_fraud_case db ud status notes).db = db ∧
    (resolve_fraud_case db ud status notes).saved = true ∧
    (resolve_fraud_case db ud status notes).reply =
      (if status == "confirmed_fraud" then
        "UPDATED_FRAUD|Card " ++ c.cardEnding ++ " has been blocked."
      else "UPDATED_SAFE|Transaction marked legitimate.") := by
  have hself :=
    updateData_eq_self db { c with case_status := status, notes := notes }
      (fun r hr => hnone r hr)
  refine ⟨?_, ?_, ?_⟩ <;> simp [resolve_fraud_case, h, hself]

/-- C3 witness: resolving John's vanished case over Mary's store. -/
theorem C3_stale_key_witness :
    (resolve_fraud_case [maryCase] sessionWithJohn "confirmed_fraud" "n").db =
      [maryCase] ∧
    (resolve_fraud_case [maryCase] sessionWithJohn "confirmed_fraud"
        "n").saved = true ∧
    (resolve_fraud_case [maryCase] sessionWithJohn "confirmed_fraud"
        "n").reply =
      (if "confirmed_fraud" == "confirmed_fraud" then
        "UPDATED_FRAUD|Card " ++ johnCase.cardEnding ++ " has been blocked."
      else "UPDATED_SAFE|Transaction marked legitimate.") :=
  C3_stale_key [maryCase] sessionWithJohn "confirmed_fraud" "n" johnCase rfl
    (by decide)

/-- C4 (counterexample): under the claim's rule — containment between the
lowercased query and lowercased stored name, with no stripping — the
query " jo " has no containment relation to the only stored name "John",
so the claim demands `NO_MATCH`; the code strips the query first and
returns John's record. -/
theorem C4_counterexample :
    specMatch johnCase.userName " jo " = false ∧
    (lookup_customer [johnCase] {} " jo ").reply = foundMessage johnCase := by
  constructor <;> decide

/-- C4 (amended): `lookup_customer` first strips surrounding whitespace
from the query and lowercases it; a record matches exactly when the
lowercased stored name is a substring of the processed query or the
processed query is a substring of the lowercased stored name. The first
matching record in store order is returned; when no record matches the
reply is `NO_MATCH`. -/
theorem C4_matching_rule (db : List FraudCase) (ud : Userdata) (q : String) :
    ((∀ c ∈ db, matchesQuery c (pyLower (pyStrip q)) = false) →
      (lookup_customer db ud q).reply = "NO_MATCH") ∧
    (∀ (i : Nat) (c : FraudCase), db[i]? = some c →
      matchesQuery c (pyLower (pyStrip q)) = true →
      (∀ j, j < i → ∀ c', db[j]? = some c' →
        matchesQuery c' (pyLower (pyStrip q)) = false) →
      (lookup_customer db ud q).reply = foundMessage c ∧
      (lookup_customer db ud q).userdata.active_case = some c) := by
  constructor
  · intro hall
    have hnone : db.find? (fun item => matchesQuery item (pyLower (pyStrip q)))
        = none :=
      List.find?_eq_none.mpr (fun x hx => by simp [hall x hx])
    simp [lookup_customer, hnone]
  · intro i c hc hp hfirst
    have hsome : db.find? (fun item => matchesQuery item (pyLower (pyStrip q)))
        = some c :=
      find?_eq_of_first _ db i c hc hp hfirst
    simp [lookup_customer, hsome]

/-- C4 witness: the query " JOHN " skips Mary's record (index 0, no
containment) and returns John's record (index 1), the first match in
store order. -/
theorem C4_matching_rule_witness :
    (lookup_customer [maryCase, johnCase] {} " JOHN ").reply =
      foundMessage johnCase ∧
    (lookup_customer [maryCase, johnCase] {} " JOHN ").userdata.active_case =
      some johnCase :=
  (C4_matching_rule [maryCase, johnCase] {} " JOHN ").2 1 johnCase rfl
    (by decide)
    (fun j hj c' hc' => by
      have hj0 : j = 0 := by omega
      subst hj0
      rw [List.getElem?_cons_zero, Option.some.injEq] at hc'
      subst hc'
      decide)

/-- C5 (counterexample): the store's record for John has card ending
"9999" (changed since the session snapshot was taken); after a
successful resolution the stored record's `cardEnding` is the snapshot's
stale "4242", so a field the workflow does not own was overwritten. -/
theorem C5_counterexample :
    ((resolve_fraud_case [johnCaseRecard] sessionWithJohn "confirmed_safe"
        "x").db.head?).map FraudCase.cardEnding = some "4242" ∧
    johnCaseRecard.cardEnding = "9999" := by
  constructor <;> decide

/-- C5 (amended): a successful `resolve_fraud_case` locates the first
stored record whose `userName` equals the active case's key, but then
replaces that entire record with the session's snapshot (with
`case_status` and `notes` overwritten): every field of the stored record
takes the snapshot's value, while all other records are unchanged
(`db.set i` semantics). The re-read of the store is used only to locate
the index, not to preserve the other fields. -/
theorem C5_full_record_overwrite (db : List FraudCase) (ud : Userdata)
    (status notes : String) (c : FraudCase) (i : Nat) (c0 : FraudCase)
    (h : ud.active_case = some c) (hi : db[i]? = some c0)
    (heq : c0.userName = c.userName)
    (hfirst : ∀ j, j < i → ∀ c', db[j]? = some c' →
      c'.userName ≠ c.userName) :
    (resolve_fraud_case db ud status notes).db =
      db.set i { c with case_status := status, notes := notes } := by
  have hset :=
    updateData_eq_set { c with case_status := status, notes := notes } db i c0
      hi heq (fun j hj c' hc' => hfirst j hj c' hc')
  simp [resolve_fraud_case, h, hset]

/-- C5 witness: resolving over the store whose John record had a new card
ending replaces that whole record with the stale snapshot. -/
theorem C5_full_record_overwrite_witness :
    (resolve_fraud_case [johnCaseRecard] sessionWithJohn "confirmed_safe"
        "x").db =
      [johnCaseRecard].set 0
        { johnCase with case_status := "confirmed_safe", notes := "x" } :=
  C5_full_record_overwrite [johnCaseRecard] sessionWithJohn "confirmed_safe"
    "x" johnCase 0 johnCaseRecard rfl rfl rfl
    (fun j hj _ _ => absurd hj (Nat.not_lt_zero j))

/-- C6 (counterexample): two resolutions in one session first set John's
stored `case_status` to "confirmed_safe" and then to "confirmed_fraud" —
a transition between two resolved values, which the claimed invariant
forbids. -/
theorem C6_counterexample :
    ((resolve_fraud_case [johnCase] sessionWithJohn "confirmed_safe"
        "a").db.head?).map FraudCase.case_status = some "confirmed_safe" ∧
    ((resolve_fraud_case
        (resolve_fraud_case [johnCase] sessionWithJohn "confirmed_safe" "a").db
        (resolve_fraud_case [johnCase] sessionWithJohn "confirmed_safe"
          "a").userdata
        "confirmed_fraud" "b").db.head?).map FraudCase.case_status =
      some "confirmed_fraud" := by
  constructor <;> decide

/-- C6 (amended): `resolve_fraud_case` overwrites the matched record's
`case_status` with whatever `status` string it is given, without
consulting the record's previous status: after the call the active
snapshot carries exactly the given status and notes, and every stored
record is either an untouched original or carries the given status. The
status domain and the transition direction are not enforced by the
code. -/
theorem C6_status_overwrite (db : List FraudCase) (ud : Userdata)
    (status notes : String) (c : FraudCase) (h : ud.active_case = some c) :
    (resolve_fraud_case db ud status notes).userdata.active_case =
      some { c with case_status := status, notes := notes } ∧
    ∀ r ∈ (resolve_fraud_case db ud status notes).db,
      r ∈ db ∨ r.case_status = status := by
  constructor
  · simp [resolve_fraud_case, h]
  · intro r hr
    simp only [resolve_fraud_case, h] at hr
    rcases updateData_mem db _ r hr with hmem | hEq
    · exact Or.inl hmem
    · exact Or.inr (by rw [hEq])

/-- C6 witness: resolving with an arbitrary status string stamps exactly
that string onto the snapshot and the store. -/
theorem C6_status_overwrite_witness :
    (resolve_fraud_case [johnCase] sessionWithJohn "confirmed_fraud"
        "n").userdata.active_case =
      some { johnCase with case_status := "confirmed_fraud", notes := "n" } ∧
    ∀ r ∈ (resolve_fraud_case [johnCase] sessionWithJohn "confirmed_fraud"
        "n").db, r ∈ [johnCase] ∨ r.case_status = "confirmed_fraud" :=
  C6_status_overwrite [johnCase] sessionWithJohn "confirmed_fraud" "n"
    johnCase rfl

/-- C7 (confirmed): every `lookup_customer` call leaves the store
collection untouched and never invokes `save_db`; its reply is either
`NO_MATCH` (session unchanged) or the `FOUND` message of some stored
record — carrying that record's security identifier, transaction amount,
name, source and time — with the session's active case set to a snapshot
of that record. -/
theorem C7_lookup_contract (db : List FraudCase) (ud : Userdata)
    (name : String) :
    (lookup_customer db ud name).db = db ∧
    (lookup_customer db ud name).saved = false ∧
    ((lookup_customer db ud name).reply = "NO_MATCH" ∧
        (lookup_customer db ud name).userdata = ud ∨
      ∃ c, c ∈ db ∧ (lookup_customer db ud name).reply = foundMessage c ∧
        (lookup_customer db ud name).userdata.active_case = some c) := by
  cases hfind : db.find?
      (fun item => matchesQuery item (pyLower (pyStrip name))) with
  | none =>
      refine ⟨?_, ?_, Or.inl ⟨?_, ?_⟩⟩ <;> simp [lookup_customer, hfind]
  | some c =>
      refine ⟨?_, ?_, Or.inr ⟨c, List.mem_of_find?_eq_some hfind, ?_, ?_⟩⟩ <;>
        simp [lookup_customer, hfind]

/-- C9 (confirmed): when the stripped, lowercased query is empty, the
containment test succeeds on the very first record (the empty string is a
substring of every stored name), so `lookup_customer` on a non-empty
store returns the first record in store order and sets it as the active
case. -/
theorem C9_empty_query (db : List FraudCase) (ud : Userdata) (q : String)
    (c : FraudCase) (hdb : db.head? = some c)
    (hq : pyLower (pyStrip q) = "") :
    (lookup_customer db ud q).reply = foundMessage c ∧
    (lookup_customer db ud q).userdata.active_case = some c := by
  cases db with
  | nil => simp at hdb
  | cons a t =>
      have hac : a = c := by simpa using hdb
      subst hac
      have hfind : List.find?
          (fun item => matchesQuery item (pyLower (pyStrip q))) (a :: t) =
            some a :=
        List.find?_cons_of_pos t (by rw [hq]; exact matchesQuery_empty a)
      simp [lookup_customer, hfind]

/-- C9 witness: a whitespace-only query returns John, the first record. -/
theorem C9_empty_query_witness :
    (lookup_customer [johnCase, maryCase] {} "   ").reply =
      foundMessage johnCase ∧
    (lookup_customer [johnCase, maryCase] {} "   ").userdata.active_case =
      some johnCase :=
  C9_empty_query [johnCase, maryCase] {} "   " johnCase rfl (by decide)

/-- C10 (confirmed): when several stored records share the active case's
`userName`, a successful resolution rewrites only the first such record
in store order; every record after it — in particular a later record with
the very same name — is left exactly as it was. -/
theorem C10_first_match_only (db : List FraudCase) (ud : Userdata)
    (status notes : String) (c : FraudCase) (i j : Nat) (c0 : FraudCase)
    (h : ud.active_case = some c) (hi : db[i]? = some c0)
    (heq : c0.userName = c.userName)
    (hfirst : ∀ k, k < i → ∀ c', db[k]? = some c' →
      c'.userName ≠ c.userName)
    (hij : i < j) :
    (resolve_fraud_case db ud status notes).db[j]? = db[j]? ∧
    (resolve_fraud_case db ud status notes).db[i]? =
      some { c with case_status := status, notes := notes } := by
  have hset :=
    updateData_eq_set { c with case_status := status, notes := notes } db i c0
      hi heq (fun k hk c' hc' => hfirst k hk c' hc')
  have hlen : i < db.length := by
    rcases List.getElem?_eq_some.mp hi with ⟨hl, _⟩
    exact hl
  constructor
  · simp only [resolve_fraud_case, h, hset]
    exact List.getElem?_set_ne (Nat.ne_of_lt hij)
  · simp only [resolve_fraud_case, h, hset]
    exact List.getElem?_set_self hlen

/-- C10 witness: with two stored records both named "John", resolution
updates index 0 and leaves the duplicate at index 1 untouched. -/
theorem C10_first_match_only_witness :
    (resolve_fraud_case [johnCase, johnCaseRecard] sessionWithJohn
        "confirmed_safe" "n").db[1]? = [johnCase, johnCaseRecard][1]? ∧
    (resolve_fraud_case [johnCase, johnCaseRecard] sessionWithJohn
        "confirmed_safe" "n").db[0]? =
      some { johnCase with case_status := "confirmed_safe", notes := "n" } :=
  C10_first_match_only [johnCase, johnCaseRecard] sessionWithJohn
    "confirmed_safe" "n" johnCase 0 1 johnCase rfl rfl rfl
    (fun k hk _ _ => absurd hk (Nat.not_lt_zero k)) Nat.zero_lt_one
